import Mathlib

/-!
Shallow embedding of the module/industry entitlement engine of the
tenant service (`services/tenant-service/app/`): the module registry,
industry templates, organization-module assignments, the service layer
(`services.py`), the repository layer (`repositories.py`) and the Kafka
producer (`kafka/producer.py`).

Databases are modelled as explicit lists of rows; SQLAlchemy's
`query(...).first()` becomes `List.find?`, `.all()` becomes `List.filter`,
an attribute mutation on the object returned by `.first()` becomes an
update of the first matching row, and `order_by` becomes a stable
insertion sort.  Side effects on the cache and the event bus are recorded
as an explicit effect trace in the order the code performs them.
Exceptions become an `Except`-style result carried next to the database
state reached when the exception was raised.
-/

/-- JSON-compatible configuration blob (`config`, `default_config`,
`metadata` columns): an open string-keyed map, opaque to the engine. -/
abbrev Config := List (String × String)

/-- A row of the `module_registry` table (display metadata other than the
name is omitted: the engine never reads it). -/
structure ModuleRegistryEntry where
  module_id : String
  module_name : String
  is_active : Bool
deriving DecidableEq, Repr

/-- A row of the `industry_templates` table. -/
structure IndustryTemplate where
  id : Nat
  industry_code : String
  industry_name : String
  is_active : Bool
deriving DecidableEq, Repr

/-- A row of the `industry_module_templates` table. -/
structure IndustryModuleTemplate where
  template_id : Nat
  module_id : String
  is_required : Bool
  default_config : Config
  display_order : Int
deriving DecidableEq, Repr

/-- A row of the `organization_modules` table. -/
structure OrganizationModule where
  organization_id : String
  module_id : String
  is_enabled : Bool
  config : Config
  enabled_at : Option Nat
deriving DecidableEq, Repr

/-- A row of the `organizations` table (only the fields the entitlement
engine touches: `apply_to_organization` records the industry on it). -/
structure Organization where
  id : String
  industry_code : Option String
  industry_name : Option String
deriving DecidableEq, Repr

/-- The relational store plus a logical clock standing for
`datetime.utcnow()`. -/
structure DB where
  registry : List ModuleRegistryEntry
  templates : List IndustryTemplate
  template_modules : List IndustryModuleTemplate
  org_modules : List OrganizationModule
  organizations : List Organization
  now : Nat
deriving DecidableEq, Repr

/-- `OrganizationModuleCreate` request model (`models.py`). -/
structure OrganizationModuleCreate where
  module_id : String
  is_enabled : Bool
  config : Config
deriving DecidableEq, Repr

/-- `OrganizationModuleUpdate` request model (`models.py`); `none` stands
for a field absent from the request (pydantic `exclude_unset`). -/
structure OrganizationModuleUpdate where
  is_enabled : Option Bool
  config : Option Config
deriving DecidableEq, Repr

/-- Error taxonomy of `shared/common/errors.py` as raised by the engine:
`ValidationError` and `ResourceNotFoundError`, each carrying its message. -/
inductive Err where
  | validationError (msg : String)
  | resourceNotFound (msg : String)
deriving DecidableEq, Repr

/-- JSON-compatible value appearing in an event payload dict. -/
inductive JVal where
  | str (s : String)
  | null
  | arr (xs : List String)
  | obj (c : Config)
deriving DecidableEq, Repr

/-- Python `str(x) if x else None` on an optional id. -/
def optStr : Option String → JVal
  | some s => .str s
  | none => .null

/-- A Kafka event as built by `publish_module_event`.

Modelled from the spec: the `Module*Event` pydantic classes imported by
`kafka/producer.py` from `shared.kafka.schemas` are not present under the
repository's source; following spec section 4.5 ("constructs an event
carrying event_type, organization_id, user_id?, payload, timestamp") and
the sibling event classes in `shared/kafka/schemas.py`, each class fixes
`event_type` to its type string and defaults `timestamp` to the current
time.  The generated `event_id` and the constant `version` are omitted. -/
structure ModuleEvent where
  event_type : String
  organization_id : String
  user_id : Option String
  payload : List (String × JVal)
  timestamp : Nat
deriving DecidableEq, Repr

/-- One recorded side effect of a service operation: a committed store
write, a Kafka publication, or a cache-key invalidation. -/
inductive Effect where
  | persist
  | publish (topic : String) (event : ModuleEvent)
  | invalidateOrgModules (organization_id : String)
  | invalidateModuleRegistry
  | invalidateIndustryTemplate (industry_code : String)
  | invalidateIndustryModules (industry_code : String)
deriving DecidableEq, Repr

/-- Coarse classification of effects, for ordering statements. -/
inductive EffKind where
  | persistK
  | publishK
  | invalidateK
deriving DecidableEq, Repr

/-- Classify an effect. -/
def Effect.kind : Effect → EffKind
  | .persist => .persistK
  | .publish _ _ => .publishK
  | _ => .invalidateK

/-- Is this effect a Kafka publication? -/
def Effect.isPublish : Effect → Bool
  | .publish _ _ => true
  | _ => false

/-- Is this effect a cache invalidation? -/
def Effect.isInvalidate : Effect → Bool
  | .persist => false
  | .publish _ _ => false
  | _ => true

/-- Topic of a publish effect (empty string otherwise). -/
def Effect.topicOf : Effect → String
  | .publish t _ => t
  | _ => ""

/-- Event type of a publish effect (empty string otherwise). -/
def Effect.eventTypeOf : Effect → String
  | .publish _ e => e.event_type
  | _ => ""

/-- Result of a service-layer call: the returned value or the raised
error, together with the database state reached and the trace of cache
and event side effects in execution order. -/
structure SvcResult (α : Type) where
  result : Except Err α
  db : DB
  effects : List Effect

/-- Did the call return without raising? -/
def SvcResult.ok? (r : SvcResult α) : Bool :=
  match r.result with
  | .ok _ => true
  | .error _ => false

/-- Replace the first element satisfying `p` by its image under `f`
(an attribute mutation on the row returned by `query(...).first()`). -/
def setFirst (p : α → Bool) (f : α → α) : List α → List α
  | [] => []
  | x :: xs => if p x then f x :: xs else x :: setFirst p f xs

/-- Delete the first element satisfying `p` (`db.delete` of the row
returned by `query(...).first()`). -/
def removeFirst (p : α → Bool) : List α → List α
  | [] => []
  | x :: xs => if p x then xs else x :: removeFirst p xs

/-- Split a character list at every dot, Python `str.split('.')`. -/
def splitDots : List Char → List (List Char)
  | [] => [[]]
  | c :: cs =>
    let r := splitDots cs
    if c = '.' then [] :: r
    else
      match r with
      | [] => [[c]]
      | s :: ss => (c :: s) :: ss

/-- Topic for an event type, `kafka/producer.py`:
`topic = "tenant.module." + event_type.split('.')[-1]`. -/
def topicFor (event_type : String) : String :=
  "tenant.module." ++ String.mk ((splitDots event_type.data).getLastD event_type.data)

/-- `publish_module_event` (`kafka/producer.py`): build the event and
publish it to the topic derived from the event type, keyed by the
organization id. -/
def publish_module_event (event_type : String) (event_data : List (String × JVal))
    (organization_id : String) (user_id : Option String) (now : Nat) : Effect :=
  .publish (topicFor event_type)
    { event_type := event_type
      organization_id := organization_id
      user_id := user_id
      payload := event_data
      timestamp := now }

/-- `ModuleRegistryRepository.get_by_id`. -/
def ModuleRegistryRepository.get_by_id (db : DB) (module_id : String) :
    Option ModuleRegistryEntry :=
  db.registry.find? (fun m => m.module_id == module_id)

/-- `ModuleRegistryRepository.validate_modules_exist`: partition the given
ids into those having a present-and-active registry row and the rest
(input order and multiplicity kept on the invalid side, as in the
Python list comprehension; the valid side follows table order, standing
for the query's result set). -/
def ModuleRegistryRepository.validate_modules_exist (db : DB) (module_ids : List String) :
    List String × List String :=
  let valid_ids :=
    (db.registry.filter (fun m => m.is_active && module_ids.contains m.module_id)).map
      (fun m => m.module_id)
  let invalid_ids := module_ids.filter (fun mid => !(valid_ids.contains mid))
  (valid_ids, invalid_ids)

/-- `ModuleRegistryRepository.deactivate`: set `is_active = False` on the
row, `NotFound` if absent. -/
def ModuleRegistryRepository.deactivate (db : DB) (module_id : String) :
    Except Err (ModuleRegistryEntry × DB) :=
  match ModuleRegistryRepository.get_by_id db module_id with
  | none => .error (.resourceNotFound s!"Module {module_id} not found in registry")
  | some m =>
    .ok ({ m with is_active := false },
      { db with
        registry :=
          setFirst (fun e => e.module_id == module_id)
            (fun e => { e with is_active := false }) db.registry })

/-- `OrganizationModuleRepository.get_by_org_and_module`. -/
def OrganizationModuleRepository.get_by_org_and_module (db : DB)
    (organization_id : String) (module_id : String) : Option OrganizationModule :=
  db.org_modules.find?
    (fun m => m.organization_id == organization_id && m.module_id == module_id)

/-- `OrganizationModuleRepository.create_or_update`: upsert keyed by
`(organization_id, module_id)`.  On an existing row only `is_enabled` and
`config` are written; on a fresh row `enabled_at` is set to now exactly
when the row is created enabled. -/
def OrganizationModuleRepository.create_or_update (db : DB) (organization_id : String)
    (module_data : OrganizationModuleCreate) : OrganizationModule × DB :=
  match OrganizationModuleRepository.get_by_org_and_module db organization_id
      module_data.module_id with
  | some m =>
    let m' := { m with is_enabled := module_data.is_enabled, config := module_data.config }
    (m',
      { db with
        org_modules :=
          setFirst
            (fun r =>
              r.organization_id == organization_id && r.module_id == module_data.module_id)
            (fun r => { r with is_enabled := module_data.is_enabled, config := module_data.config })
            db.org_modules })
  | none =>
    let m : OrganizationModule :=
      { organization_id := organization_id
        module_id := module_data.module_id
        is_enabled := module_data.is_enabled
        config := module_data.config
        enabled_at := if module_data.is_enabled then some db.now else none }
    (m, { db with org_modules := db.org_modules ++ [m] })

/-- `OrganizationModuleRepository.update`: partial update of the row,
`NotFound` if absent; sets `enabled_at` when the update enables a row
whose `enabled_at` is still unset. -/
def OrganizationModuleRepository.update (db : DB) (organization_id : String)
    (module_id : String) (module_data : OrganizationModuleUpdate) :
    Except Err (OrganizationModule × DB) :=
  match OrganizationModuleRepository.get_by_org_and_module db organization_id module_id with
  | none =>
    .error (.resourceNotFound
      s!"Module {module_id} not found for organization {organization_id}")
  | some m =>
    let m1 :=
      match module_data.is_enabled with
      | some b => { m with is_enabled := b }
      | none => m
    let m2 :=
      match module_data.config with
      | some c => { m1 with config := c }
      | none => m1
    let m3 :=
      if module_data.is_enabled = some true && m.enabled_at = none then
        { m2 with enabled_at := some db.now }
      else m2
    .ok (m3,
      { db with
        org_modules :=
          setFirst
            (fun r => r.organization_id == organization_id && r.module_id == module_id)
            (fun _ => m3) db.org_modules })

/-- `IndustryTemplateRepository.get_by_code`. -/
def IndustryTemplateRepository.get_by_code (db : DB) (industry_code : String) :
    Option IndustryTemplate :=
  db.templates.find? (fun t => t.industry_code == industry_code)

/-- Stable insertion of a link into a list sorted by `display_order`. -/
def insertByOrder (a : IndustryModuleTemplate) :
    List IndustryModuleTemplate → List IndustryModuleTemplate
  | [] => [a]
  | b :: bs =>
    if b.display_order ≤ a.display_order then b :: insertByOrder a bs
    else a :: b :: bs

/-- Stable sort by `display_order` ascending (`order_by(display_order)`). -/
def sortByDisplayOrder : List IndustryModuleTemplate → List IndustryModuleTemplate
  | [] => []
  | a :: rest => insertByOrder a (sortByDisplayOrder rest)

/-- `IndustryModuleTemplateRepository.get_modules_for_industry`: join the
links with their template, filter by industry code, order by
`display_order`. -/
def IndustryModuleTemplateRepository.get_modules_for_industry (db : DB)
    (industry_code : String) : List IndustryModuleTemplate :=
  sortByDisplayOrder
    (db.template_modules.filter
      (fun mt =>
        (db.templates.find? (fun t => t.id == mt.template_id)).any
          (fun t => t.industry_code == industry_code)))

/-- `IndustryModuleTemplateRepository.add_module_to_industry`: insert the
link row. -/
def IndustryModuleTemplateRepository.add_module_to_industry (db : DB) (template_id : Nat)
    (module_id : String) (is_required : Bool) (default_config : Config)
    (display_order : Int) : IndustryModuleTemplate × DB :=
  let mt : IndustryModuleTemplate :=
    { template_id := template_id
      module_id := module_id
      is_required := is_required
      default_config := default_config
      display_order := display_order }
  (mt, { db with template_modules := db.template_modules ++ [mt] })

/-- `OrganizationRepository.get_by_id`. -/
def OrganizationRepository.get_by_id (db : DB) (organization_id : String) :
    Option Organization :=
  db.organizations.find? (fun o => o.id == organization_id)

/-- Python dict built by `{mt.module_id: mt.default_config for mt in mts}`
then read with `.get(key, {})`: for duplicate keys the last entry wins,
a missing key yields the empty config. -/
def dictGet (d : List (String × Config)) (k : String) : Config :=
  match d.reverse.find? (fun p => p.1 == k) with
  | some p => p.2
  | none => []

/-- `ModuleService.assign_module`: validate the module against the
registry (`NotFound` when absent, `ValidationError` when inactive), upsert
the assignment enabled with the given config, publish
`module.assigned`, then invalidate the organization's module cache. -/
def ModuleService.assign_module (db : DB) (organization_id : String) (module_id : String)
    (config : Config) (user_id : Option String) : SvcResult OrganizationModule :=
  match ModuleRegistryRepository.get_by_id db module_id with
  | none =>
    ⟨.error (.resourceNotFound s!"Module {module_id} not found in registry"), db, []⟩
  | some module_registry =>
    if !module_registry.is_active then
      ⟨.error (.validationError s!"Module {module_id} is not active"), db, []⟩
    else
      let module_data : OrganizationModuleCreate :=
        { module_id := module_id, is_enabled := true, config := config }
      let r := OrganizationModuleRepository.create_or_update db organization_id module_data
      ⟨.ok r.1, r.2,
        [.persist,
         publish_module_event "module.assigned"
           [("module_id", .str module_id),
            ("organization_id", .str organization_id),
            ("config", .obj config),
            ("assigned_by", optStr user_id)]
           organization_id user_id r.2.now,
         .invalidateOrgModules organization_id]⟩

/-- `ModuleService.unassign_module`: `NotFound` when the assignment does
not exist, otherwise hard-delete the row, publish `module.unassigned`,
then invalidate the organization's module cache. -/
def ModuleService.unassign_module (db : DB) (organization_id : String) (module_id : String)
    (user_id : Option String) : SvcResult Bool :=
  match OrganizationModuleRepository.get_by_org_and_module db organization_id module_id with
  | none =>
    ⟨.error (.resourceNotFound
      s!"Module {module_id} not assigned to organization {organization_id}"), db, []⟩
  | some _ =>
    let db1 :=
      { db with
        org_modules :=
          removeFirst
            (fun r => r.organization_id == organization_id && r.module_id == module_id)
            db.org_modules }
    ⟨.ok true, db1,
      [.persist,
       publish_module_event "module.unassigned"
         [("module_id", .str module_id),
          ("organization_id", .str organization_id),
          ("unassigned_by", optStr user_id)]
         organization_id user_id db1.now,
       .invalidateOrgModules organization_id]⟩

/-- The per-module upsert loop of `ModuleService.bulk_assign_modules`. -/
def bulkAssignLoop (organization_id : String) (default_configs : List (String × Config)) :
    List String → DB → List OrganizationModule × DB
  | [], db => ([], db)
  | module_id :: rest, db =>
    let r := OrganizationModuleRepository.create_or_update db organization_id
      { module_id := module_id, is_enabled := true, config := dictGet default_configs module_id }
    let rec' := bulkAssignLoop organization_id default_configs rest r.2
    (r.1 :: rec'.1, rec'.2)

/-- `ModuleService.bulk_assign_modules`: validate every id in one
registry call and fail with `ValidationError` listing the invalid ids
before any write; otherwise source per-module default configs from the
industry template when the code resolves, upsert each valid module,
publish one `module.bulk_assigned` event, then invalidate the
organization's module cache. -/
def ModuleService.bulk_assign_modules (db : DB) (organization_id : String)
    (module_ids : List String) (industry_code : Option String) (user_id : Option String) :
    SvcResult (List OrganizationModule) :=
  let valid_ids := (ModuleRegistryRepository.validate_modules_exist db module_ids).1
  let invalid_ids := (ModuleRegistryRepository.validate_modules_exist db module_ids).2
  if !invalid_ids.isEmpty then
    ⟨.error (.validationError s!"Invalid modules: {invalid_ids}"), db, []⟩
  else
    let default_configs : List (String × Config) :=
      match industry_code with
      | none => []
      | some code =>
        match IndustryTemplateRepository.get_by_code db code with
        | none => []
        | some _ =>
          (IndustryModuleTemplateRepository.get_modules_for_industry db code).map
            (fun mt => (mt.module_id, mt.default_config))
    let r := bulkAssignLoop organization_id default_configs valid_ids db
    ⟨.ok r.1, r.2,
      (valid_ids.map (fun _ => Effect.persist)) ++
        [publish_module_event "module.bulk_assigned"
          [("module_ids", .arr valid_ids),
           ("organization_id", .str organization_id),
           ("industry_code", optStr industry_code),
           ("assigned_by", optStr user_id)]
          organization_id user_id r.2.now,
         .invalidateOrgModules organization_id]⟩

/-- `ModuleService.update_module`: delegate to the repository update and
return the row; the code neither invalidates any cache key nor publishes
any event on this path. -/
def ModuleService.update_module (db : DB) (organization_id : String) (module_id : String)
    (module_data : OrganizationModuleUpdate) : SvcResult OrganizationModule :=
  match OrganizationModuleRepository.update db organization_id module_id module_data with
  | .error e => ⟨.error e, db, []⟩
  | .ok r => ⟨.ok r.1, r.2, [.persist]⟩

/-- `ModuleRegistryService.deactivate_module`: repository deactivate, then
invalidate the registry cache key (no event is published). -/
def ModuleRegistryService.deactivate_module (db : DB) (module_id : String) :
    SvcResult ModuleRegistryEntry :=
  match ModuleRegistryRepository.deactivate db module_id with
  | .error e => ⟨.error e, db, []⟩
  | .ok r => ⟨.ok r.1, r.2, [.persist, .invalidateModuleRegistry]⟩

/-- `IndustryTemplateService.apply_to_organization`: `NotFound` when the
template is missing, `ValidationError` when it has no modules or any
linked module is missing-or-inactive, `NotFound` when the organization is
missing; otherwise record the industry on the organization and delegate
to `bulk_assign_modules` with the template's module ids. -/
def IndustryTemplateService.apply_to_organization (db : DB) (organization_id : String)
    (industry_code : String) (user_id : Option String) :
    SvcResult (List OrganizationModule) :=
  match IndustryTemplateRepository.get_by_code db industry_code with
  | none =>
    ⟨.error (.resourceNotFound s!"Industry template {industry_code} not found"), db, []⟩
  | some template =>
    let module_templates :=
      IndustryModuleTemplateRepository.get_modules_for_industry db industry_code
    if module_templates.isEmpty then
      ⟨.error (.validationError
        s!"Industry template {industry_code} has no modules assigned"), db, []⟩
    else
      let module_ids := module_templates.map (fun mt => mt.module_id)
      let valid_ids := (ModuleRegistryRepository.validate_modules_exist db module_ids).1
      let invalid_ids := (ModuleRegistryRepository.validate_modules_exist db module_ids).2
      if !invalid_ids.isEmpty then
        ⟨.error (.validationError
          s!"Industry template contains invalid modules: {invalid_ids}"), db, []⟩
      else
        match OrganizationRepository.get_by_id db organization_id with
        | none =>
          ⟨.error (.resourceNotFound s!"Organization {organization_id} not found"), db, []⟩
        | some _ =>
          let db1 :=
            { db with
              organizations :=
                setFirst (fun o => o.id == organization_id)
                  (fun o =>
                    { o with
                      industry_code := some industry_code
                      industry_name := some template.industry_name })
                  db.organizations }
          let r := ModuleService.bulk_assign_modules db1 organization_id valid_ids
            (some industry_code) user_id
          ⟨r.result, r.db, .persist :: r.effects⟩

/-- `IndustryTemplateService.add_module_to_industry`: `NotFound` when the
template or the module is absent (the module's active flag is not
checked), `ValidationError` when the pair is already linked; otherwise
append the link and invalidate the template cache keys. -/
def IndustryTemplateService.add_module_to_industry (db : DB) (industry_code : String)
    (module_id : String) (is_required : Bool) (default_config : Config)
    (display_order : Int) : SvcResult IndustryModuleTemplate :=
  match IndustryTemplateRepository.get_by_code db industry_code with
  | none =>
    ⟨.error (.resourceNotFound s!"Industry template {industry_code} not found"), db, []⟩
  | some template =>
    match ModuleRegistryRepository.get_by_id db module_id with
    | none =>
      ⟨.error (.resourceNotFound s!"Module {module_id} not found in registry"), db, []⟩
    | some _ =>
      let existing := IndustryModuleTemplateRepository.get_modules_for_industry db industry_code
      if existing.any (fun mt => mt.module_id == module_id) then
        ⟨.error (.validationError
          s!"Module {module_id} is already assigned to industry {industry_code}"), db, []⟩
      else
        let r := IndustryModuleTemplateRepository.add_module_to_industry db template.id
          module_id is_required default_config display_order
        ⟨.ok r.1, r.2,
          [.persist,
           .invalidateIndustryTemplate industry_code,
           .invalidateIndustryModules industry_code]⟩

/-- Rows of the assignment store for a given `(organization, module)` key. -/
def DB.pairRows (db : DB) (organization_id : String) (module_id : String) :
    List OrganizationModule :=
  db.org_modules.filter
    (fun r => r.organization_id == organization_id && r.module_id == module_id)

/-- The `(organization_id, module_id)` uniqueness constraint of the
`organization_modules` table. -/
def DB.orgModulesUnique (db : DB) : Prop :=
  db.org_modules.Pairwise
    (fun a b => ¬(a.organization_id = b.organization_id ∧ a.module_id = b.module_id))

/-- The `module_id` primary-key constraint of the `module_registry` table. -/
def DB.registryIdsUnique (db : DB) : Prop :=
  db.registry.Pairwise (fun a b => a.module_id ≠ b.module_id)

/-- The `id` primary-key constraint of the `industry_templates` table. -/
def DB.templateIdsUnique (db : DB) : Prop :=
  db.templates.Pairwise (fun a b => a.id ≠ b.id)

/-- Sample registry row: an active `projects` module. -/
def entProjects : ModuleRegistryEntry :=
  { module_id := "projects", module_name := "Projects", is_active := true }

/-- Sample registry row: an active `crm` module. -/
def entCrm : ModuleRegistryEntry :=
  { module_id := "crm", module_name := "CRM", is_active := true }

/-- Sample registry row: an inactive `legacy` module. -/
def entLegacy : ModuleRegistryEntry :=
  { module_id := "legacy", module_name := "Legacy", is_active := false }

/-- Sample industry template `tech`. -/
def tmplTech : IndustryTemplate :=
  { id := 1, industry_code := "tech", industry_name := "Tech", is_active := true }

/-- Sample template link `tech -> projects`. -/
def linkTechProjects : IndustryModuleTemplate :=
  { template_id := 1, module_id := "projects", is_required := true,
    default_config := [("k", "v")], display_order := 0 }

/-- Sample organization `acme`. -/
def orgAcme : Organization := { id := "acme", industry_code := none, industry_name := none }

/-- Sample database: three registry modules (one inactive), the `tech`
template linking `projects`, no assignments yet. -/
def dbSample : DB :=
  { registry := [entProjects, entCrm, entLegacy]
    templates := [tmplTech]
    template_modules := [linkTechProjects]
    org_modules := []
    organizations := [orgAcme]
    now := 7 }

/-- Sample database with an existing enabled assignment `acme/projects`. -/
def dbAssigned : DB :=
  { dbSample with
    org_modules :=
      [{ organization_id := "acme", module_id := "projects", is_enabled := true,
         config := [], enabled_at := some 7 }] }

/-- The registry state after `ModuleRegistryRepository.deactivate`
flips `is_active` on the first row with the given id. -/
def DB.deactivateModule (db : DB) (A : String) : DB :=
  { db with
    registry :=
      setFirst (fun m => m.module_id == A) (fun m => { m with is_active := false })
        db.registry }

/-- Did the call raise a `ValidationError`? -/
def SvcResult.isValidationFailure (r : SvcResult α) : Bool :=
  match r.result with
  | .error (.validationError _) => true
  | _ => false

instance {α : Type} [DecidableEq α] : DecidableEq (Except Err α) := fun a b =>
  match a, b with
  | .ok x, .ok y =>
    if h : x = y then .isTrue (by rw [h]) else .isFalse (by intro hc; cases hc; exact h rfl)
  | .ok _, .error _ => .isFalse (by intro hc; cases hc)
  | .error _, .ok _ => .isFalse (by intro hc; cases hc)
  | .error x, .error y =>
    if h : x = y then .isTrue (by rw [h]) else .isFalse (by intro hc; cases hc; exact h rfl)

theorem setFirst_of_find?_self {α : Type} {p : α → Bool} {f : α → α} {a : α} :
    ∀ {l : List α}, l.find? p = some a → f a = a → setFirst p f l = l := by
  intro l
  induction l with
  | nil => intro h _; simp [List.find?] at h
  | cons x xs ih =>
    intro h hfa
    cases hx : p x with
    | true =>
      simp only [List.find?, hx] at h
      have hxa : x = a := by injection h
      subst hxa
      simp only [setFirst, hx, if_true, hfa]
    | false =>
      simp only [List.find?, hx] at h
      simp only [setFirst, hx, Bool.false_eq_true, if_false]
      rw [ih h hfa]

theorem find?_setFirst_found {α : Type} {p : α → Bool} {f : α → α} {a : α} :
    ∀ {l : List α}, l.find? p = some a → p (f a) = true →
      (setFirst p f l).find? p = some (f a) := by
  intro l
  induction l with
  | nil => intro h; simp [List.find?] at h
  | cons x xs ih =>
    intro h hpfa
    cases hx : p x with
    | true =>
      simp only [List.find?, hx] at h
      have hxa : x = a := by injection h
      subst hxa
      simp only [setFirst, hx, if_true, List.find?, hpfa]
    | false =>
      simp only [List.find?, hx] at h
      simp only [setFirst, hx, Bool.false_eq_true, if_false, List.find?]
      exact ih h hpfa

theorem find?_setFirst_disjoint {α : Type} {p q : α → Bool} {f : α → α}
    (hq : ∀ x, p x = true → q x = false)
    (hqf : ∀ x, p x = true → q (f x) = false) :
    ∀ (l : List α), (setFirst p f l).find? q = l.find? q := by
  intro l
  induction l with
  | nil => simp [setFirst]
  | cons x xs ih =>
    by_cases hx : p x
    · simp [setFirst, hx, List.find?, hqf x hx, hq x hx]
    · simp only [Bool.not_eq_true] at hx
      simp [setFirst, hx, List.find?]
      cases hqx : q x with
      | true => simp
      | false => simp [ih]

theorem length_filter_setFirst {α : Type} {p : α → Bool} {f : α → α}
    (hpf : ∀ x, p x = true → p (f x) = true) :
    ∀ (l : List α), ((setFirst p f l).filter p).length = (l.filter p).length := by
  intro l
  induction l with
  | nil => simp [setFirst]
  | cons x xs ih =>
    by_cases hx : p x
    · simp [setFirst, hx, List.filter, hpf x hx]
    · simp only [Bool.not_eq_true] at hx
      simp [setFirst, hx, List.filter, ih]

theorem length_filter_le_one_of_pairwise {α : Type} {R : α → α → Prop} {p : α → Bool}
    (h : ∀ a b, p a = true → p b = true → ¬R a b) :
    ∀ {l : List α}, l.Pairwise R → (l.filter p).length ≤ 1 := by
  intro l
  induction l with
  | nil => intro _; simp
  | cons x xs ih =>
    intro hpw
    rcases List.pairwise_cons.mp hpw with ⟨hx, hxs⟩
    by_cases hpx : p x
    · have hnil : xs.filter p = [] := by
        rw [List.filter_eq_nil_iff]
        intro a ha hpa
        exact h x a hpx hpa (hx a ha)
      simp [List.filter, hpx, hnil]
    · simp only [Bool.not_eq_true] at hpx
      simp [List.filter, hpx]
      exact ih hxs

theorem one_le_length_filter_of_find? {α : Type} {p : α → Bool} {l : List α} {a : α}
    (h : l.find? p = some a) : 1 ≤ (l.filter p).length := by
  have ha : a ∈ l.filter p :=
    List.mem_filter.mpr ⟨List.mem_of_find?_eq_some h, List.find?_some h⟩
  cases hfp : l.filter p with
  | nil => rw [hfp] at ha; simp at ha
  | cons b bs => simp

theorem find?_unique {α : Type} {p : α → Bool} {l : List α} {a : α}
    (huniq : l.Pairwise (fun x y => ¬(p x = true ∧ p y = true)))
    (ha : a ∈ l) (hpa : p a = true) : l.find? p = some a := by
  induction l with
  | nil => simp at ha
  | cons x xs ih =>
    rcases List.pairwise_cons.mp huniq with ⟨hx, hxs⟩
    rcases List.mem_cons.mp ha with h | h
    · subst h
      simp [List.find?, hpa]
    · have hpx : p x = false := by
        cases hq : p x with
        | false => rfl
        | true => exact absurd ⟨hq, hpa⟩ (hx a h)
      simp only [List.find?, hpx]
      exact ih hxs h

theorem mem_insertByOrder {a x : IndustryModuleTemplate} :
    ∀ {l : List IndustryModuleTemplate}, x ∈ insertByOrder a l ↔ x = a ∨ x ∈ l := by
  intro l
  induction l with
  | nil => simp [insertByOrder]
  | cons b bs ih =>
    by_cases hb : b.display_order ≤ a.display_order
    · simp only [insertByOrder, if_pos hb, List.mem_cons, ih]
      tauto
    · simp only [insertByOrder, if_neg hb, List.mem_cons]

theorem mem_sortByDisplayOrder {x : IndustryModuleTemplate} :
    ∀ {l : List IndustryModuleTemplate}, x ∈ sortByDisplayOrder l ↔ x ∈ l := by
  intro l
  induction l with
  | nil => simp [sortByDisplayOrder]
  | cons b bs ih =>
    simp [sortByDisplayOrder, mem_insertByOrder, ih]

theorem find?_append_none {α : Type} {p : α → Bool} :
    ∀ {l : List α}, l.find? p = none → ∀ (l' : List α), (l ++ l').find? p = l'.find? p := by
  intro l
  induction l with
  | nil => intro _ l'; simp
  | cons x xs ih =>
    intro h l'
    have hx : p x = false := by
      cases hq : p x with
      | false => rfl
      | true =>
        exfalso
        have := (List.find?_eq_none.mp h) x (by simp)
        rw [hq] at this
        exact this rfl
    have hxs : xs.find? p = none := by
      rw [List.find?_eq_none]
      intro y hy
      exact (List.find?_eq_none.mp h) y (by simp [hy])
    simp only [List.cons_append, List.find?, hx]
    exact ih hxs l'

theorem find?_append_single {α : Type} {p : α → Bool} {m : α} (hm : p m = false) :
    ∀ (l : List α), (l ++ [m]).find? p = l.find? p := by
  intro l
  induction l with
  | nil => simp [List.find?, hm]
  | cons x xs ih =>
    cases hx : p x with
    | true => simp only [List.cons_append, List.find?, hx]
    | false =>
      simp only [List.cons_append, List.find?, hx]
      exact ih

theorem create_or_update_fields (db : DB) (org : String) (md : OrganizationModuleCreate) :
    ((OrganizationModuleRepository.create_or_update db org md).1).organization_id = org ∧
    ((OrganizationModuleRepository.create_or_update db org md).1).module_id = md.module_id ∧
    ((OrganizationModuleRepository.create_or_update db org md).1).is_enabled = md.is_enabled ∧
    ((OrganizationModuleRepository.create_or_update db org md).1).config = md.config := by
  unfold OrganizationModuleRepository.create_or_update
  cases hf : OrganizationModuleRepository.get_by_org_and_module db org md.module_id with
  | none => exact ⟨rfl, rfl, rfl, rfl⟩
  | some m =>
    have hf' : db.org_modules.find?
        (fun r => r.organization_id == org && r.module_id == md.module_id) = some m := hf
    have hp := List.find?_some hf'
    rw [Bool.and_eq_true] at hp
    exact ⟨beq_iff_eq.mp hp.1, beq_iff_eq.mp hp.2, rfl, rfl⟩

theorem create_or_update_preserves (db : DB) (org : String) (md : OrganizationModuleCreate) :
    ((OrganizationModuleRepository.create_or_update db org md).2).registry = db.registry ∧
    ((OrganizationModuleRepository.create_or_update db org md).2).templates = db.templates ∧
    ((OrganizationModuleRepository.create_or_update db org md).2).template_modules
      = db.template_modules ∧
    ((OrganizationModuleRepository.create_or_update db org md).2).organizations
      = db.organizations ∧
    ((OrganizationModuleRepository.create_or_update db org md).2).now = db.now := by
  unfold OrganizationModuleRepository.create_or_update
  cases hf : OrganizationModuleRepository.get_by_org_and_module db org md.module_id with
  | none => exact ⟨rfl, rfl, rfl, rfl, rfl⟩
  | some m => exact ⟨rfl, rfl, rfl, rfl, rfl⟩

theorem get_after_create_or_update (db : DB) (org : String) (md : OrganizationModuleCreate) :
    OrganizationModuleRepository.get_by_org_and_module
        (OrganizationModuleRepository.create_or_update db org md).2 org md.module_id
      = some ((OrganizationModuleRepository.create_or_update db org md).1) := by
  unfold OrganizationModuleRepository.create_or_update
  cases hf : OrganizationModuleRepository.get_by_org_and_module db org md.module_id with
  | none =>
    have hf' : db.org_modules.find?
        (fun r => r.organization_id == org && r.module_id == md.module_id) = none := hf
    show List.find? _ (db.org_modules ++ [_]) = _
    rw [find?_append_none hf']
    simp [List.find?]
  | some m =>
    have hf' : db.org_modules.find?
        (fun r => r.organization_id == org && r.module_id == md.module_id) = some m := hf
    have hp := List.find?_some hf'
    show List.find? _ (setFirst _ _ db.org_modules) = _
    rw [find?_setFirst_found hf' (by simpa using hp)]

theorem get_other_after_create_or_update (db : DB) (org : String)
    (md : OrganizationModuleCreate) (org' mid' : String)
    (hne : ¬(org' = org ∧ mid' = md.module_id)) :
    OrganizationModuleRepository.get_by_org_and_module
        (OrganizationModuleRepository.create_or_update db org md).2 org' mid'
      = OrganizationModuleRepository.get_by_org_and_module db org' mid' := by
  have key_false : ∀ x : OrganizationModule,
      (x.organization_id == org && x.module_id == md.module_id) = true →
      (x.organization_id == org' && x.module_id == mid') = false := by
    intro x hx
    rw [Bool.and_eq_true] at hx
    cases hq : (x.organization_id == org' && x.module_id == mid') with
    | false => rfl
    | true =>
      rw [Bool.and_eq_true] at hq
      exact absurd
        ⟨(beq_iff_eq.mp hq.1).symm.trans (beq_iff_eq.mp hx.1),
         (beq_iff_eq.mp hq.2).symm.trans (beq_iff_eq.mp hx.2)⟩ hne
  unfold OrganizationModuleRepository.create_or_update
  cases hf : OrganizationModuleRepository.get_by_org_and_module db org md.module_id with
  | none =>
    apply find?_append_single
    apply key_false
    simp
  | some m =>
    apply find?_setFirst_disjoint key_false
    intro x hx
    exact key_false x hx

theorem bulkAssignLoop_preserves (organization_id : String)
    (default_configs : List (String × Config)) :
    ∀ (ids : List String) (db : DB),
      (bulkAssignLoop organization_id default_configs ids db).2.registry = db.registry ∧
      (bulkAssignLoop organization_id default_configs ids db).2.now = db.now := by
  intro ids
  induction ids with
  | nil => intro db; exact ⟨rfl, rfl⟩
  | cons mid rest ih =>
    intro db
    simp only [bulkAssignLoop]
    have hcu := create_or_update_preserves db organization_id
      { module_id := mid, is_enabled := true, config := dictGet default_configs mid }
    have hr := ih (OrganizationModuleRepository.create_or_update db organization_id
      { module_id := mid, is_enabled := true, config := dictGet default_configs mid }).2
    exact ⟨hr.1.trans hcu.1, hr.2.trans hcu.2.2.2.2⟩

theorem bulkAssignLoop_keeps (organization_id : String)
    (default_configs : List (String × Config)) :
    ∀ (ids : List String) (db : DB) (mid : String) (m : OrganizationModule),
      OrganizationModuleRepository.get_by_org_and_module db organization_id mid = some m →
      m.is_enabled = true → m.config = dictGet default_configs mid →
      ∃ m', OrganizationModuleRepository.get_by_org_and_module
          (bulkAssignLoop organization_id default_configs ids db).2 organization_id mid
          = some m' ∧ m'.is_enabled = true ∧ m'.config = dictGet default_configs mid := by
  intro ids
  induction ids with
  | nil =>
    intro db mid m hm hen hcf
    exact ⟨m, hm, hen, hcf⟩
  | cons mid' rest ih =>
    intro db mid m hm hen hcf
    simp only [bulkAssignLoop]
    by_cases heq : mid = mid'
    · subst heq
      have hfields := create_or_update_fields db organization_id
        { module_id := mid, is_enabled := true, config := dictGet default_configs mid }
      have hget := get_after_create_or_update db organization_id
        { module_id := mid, is_enabled := true, config := dictGet default_configs mid }
      exact ih _ _ _ hget hfields.2.2.1 hfields.2.2.2
    · have hget := get_other_after_create_or_update db organization_id
        { module_id := mid', is_enabled := true, config := dictGet default_configs mid' }
        organization_id mid (by intro hc; exact heq hc.2)
      exact ih _ _ _ (hget.trans hm) hen hcf

theorem bulkAssignLoop_assigns (organization_id : String)
    (default_configs : List (String × Config)) :
    ∀ (ids : List String) (db : DB) (mid : String), mid ∈ ids →
      ∃ m, OrganizationModuleRepository.get_by_org_and_module
          (bulkAssignLoop organization_id default_configs ids db).2 organization_id mid
          = some m ∧ m.is_enabled = true ∧ m.config = dictGet default_configs mid := by
  intro ids
  induction ids with
  | nil => intro db mid hm; simp at hm
  | cons mid' rest ih =>
    intro db mid hm
    by_cases hmem : mid ∈ rest
    · simp only [bulkAssignLoop]
      exact ih _ mid hmem
    · have heq : mid = mid' := by
        rcases List.mem_cons.mp hm with h | h
        · exact h
        · exact absurd h hmem
      subst heq
      simp only [bulkAssignLoop]
      have hfields := create_or_update_fields db organization_id
        { module_id := mid, is_enabled := true, config := dictGet default_configs mid }
      have hget := get_after_create_or_update db organization_id
        { module_id := mid, is_enabled := true, config := dictGet default_configs mid }
      exact bulkAssignLoop_keeps organization_id default_configs rest _ mid _
        hget hfields.2.2.1 hfields.2.2.2

theorem bulkAssignLoop_rows (organization_id : String)
    (default_configs : List (String × Config)) :
    ∀ (ids : List String) (db : DB) (m : OrganizationModule),
      m ∈ (bulkAssignLoop organization_id default_configs ids db).1 →
      m.organization_id = organization_id ∧ m.is_enabled = true ∧
        m.config = dictGet default_configs m.module_id ∧ m.module_id ∈ ids := by
  intro ids
  induction ids with
  | nil => intro db m hm; simp [bulkAssignLoop] at hm
  | cons mid rest ih =>
    intro db m hm
    simp only [bulkAssignLoop, List.mem_cons] at hm
    rcases hm with h | h
    · subst h
      have hfields := create_or_update_fields db organization_id
        { module_id := mid, is_enabled := true, config := dictGet default_configs mid }
      refine ⟨hfields.1, hfields.2.2.1, ?_, ?_⟩
      · rw [hfields.2.2.2, hfields.2.1]
      · rw [hfields.2.1]; exact List.mem_cons_self _ _
    · have := ih _ _ h
      exact ⟨this.1, this.2.1, this.2.2.1, List.mem_cons_of_mem _ this.2.2.2⟩

theorem mem_filter_not_contains {valid module_ids : List String} {mid : String} :
    mid ∈ module_ids.filter (fun m => !(valid.contains m)) ↔
      mid ∈ module_ids ∧ mid ∉ valid := by
  simp [List.mem_filter]

theorem mem_valid_iff (db : DB) (module_ids : List String) (mid : String) :
    mid ∈ (ModuleRegistryRepository.validate_modules_exist db module_ids).1 ↔
      ∃ e ∈ db.registry, e.module_id = mid ∧ e.is_active = true ∧ mid ∈ module_ids := by
  unfold ModuleRegistryRepository.validate_modules_exist
  simp only [List.mem_map, List.mem_filter, Bool.and_eq_true]
  constructor
  · rintro ⟨e, ⟨he, hact, hcont⟩, hid⟩
    refine ⟨e, he, hid, hact, ?_⟩
    rw [← hid]
    simpa using hcont
  · rintro ⟨e, he, hid, hact, hmem⟩
    refine ⟨e, ⟨he, hact, ?_⟩, hid⟩
    rw [hid]
    simpa using hmem

theorem mem_invalid_iff (db : DB) (module_ids : List String) (mid : String) :
    mid ∈ (ModuleRegistryRepository.validate_modules_exist db module_ids).2 ↔
      mid ∈ module_ids ∧ ¬∃ e ∈ db.registry, e.module_id = mid ∧ e.is_active = true := by
  have hbase := @mem_filter_not_contains
    ((ModuleRegistryRepository.validate_modules_exist db module_ids).1) module_ids mid
  constructor
  · intro h
    rcases hbase.mp h with ⟨hmem, hnv⟩
    refine ⟨hmem, ?_⟩
    rintro ⟨e, he, hid, hact⟩
    exact hnv ((mem_valid_iff db module_ids mid).mpr ⟨e, he, hid, hact, hmem⟩)
  · rintro ⟨hmem, hno⟩
    apply hbase.mpr
    refine ⟨hmem, ?_⟩
    intro hv
    rcases (mem_valid_iff db module_ids mid).mp hv with ⟨e, he, hid, hact, _⟩
    exact hno ⟨e, he, hid, hact⟩

theorem mem_valid_of_no_invalid (db : DB) (module_ids : List String)
    (hnone : (ModuleRegistryRepository.validate_modules_exist db module_ids).2 = []) :
    ∀ mid ∈ module_ids,
      mid ∈ (ModuleRegistryRepository.validate_modules_exist db module_ids).1 := by
  intro mid hmid
  by_contra hnv
  have hmem : mid ∈ (ModuleRegistryRepository.validate_modules_exist db module_ids).2 :=
    (@mem_filter_not_contains
      ((ModuleRegistryRepository.validate_modules_exist db module_ids).1) module_ids mid).mpr
      ⟨hmid, hnv⟩
  rw [hnone] at hmem
  simp at hmem

/-- C1 (corrected): assigning a module id that is absent from the registry
fails with `ResourceNotFoundError` (not `ValidationError`, as the claim
states), and assigning one that is present but inactive fails with
`ValidationError`; in both cases the store is unchanged and no cache or
event side effect happens. -/
theorem assign_module_invalid_rejected (db : DB) (organization_id module_id : String)
    (config : Config) (user_id : Option String) :
    (ModuleRegistryRepository.get_by_id db module_id = none →
      (ModuleService.assign_module db organization_id module_id config user_id).result
          = .error (.resourceNotFound s!"Module {module_id} not found in registry") ∧
      (ModuleService.assign_module db organization_id module_id config user_id).db = db ∧
      (ModuleService.assign_module db organization_id module_id config user_id).effects = []) ∧
    (∀ e, ModuleRegistryRepository.get_by_id db module_id = some e → e.is_active = false →
      (ModuleService.assign_module db organization_id module_id config user_id).result
          = .error (.validationError s!"Module {module_id} is not active") ∧
      (ModuleService.assign_module db organization_id module_id config user_id).db = db ∧
      (ModuleService.assign_module db organization_id module_id config user_id).effects = []) := by
  constructor
  · intro h
    simp [ModuleService.assign_module, h]
  · intro e he hact
    simp [ModuleService.assign_module, he, hact]

/-- C1 counterexample: on the sample database, assigning the nonexistent
module id `ghost` raises `ResourceNotFoundError`, not the
`ValidationError` the claim requires. -/
theorem assign_module_absent_is_not_validation_error :
    ((ModuleService.assign_module dbSample "acme" "ghost" [] none).result
        = .error (.resourceNotFound "Module ghost not found in registry")) ∧
    ((ModuleService.assign_module dbSample "acme" "ghost" [] none).isValidationFailure
        = false) := by
  exact ⟨by decide, by decide⟩

/-- C1 witness: the amended theorem applied to the sample database, for
the absent id `ghost` and the inactive id `legacy`. -/
theorem assign_module_invalid_rejected_witness :
    ((ModuleService.assign_module dbSample "acme" "ghost" [] none).db = dbSample) ∧
    ((ModuleService.assign_module dbSample "acme" "legacy" [] none).result
        = .error (.validationError "Module legacy is not active")) :=
  ⟨((assign_module_invalid_rejected dbSample "acme" "ghost" [] none).1 (by decide)).2.1,
   ((assign_module_invalid_rejected dbSample "acme" "legacy" [] none).2 entLegacy
      (by decide) (by decide)).1⟩

/-- C2 (confirmed): when at least one requested module id has no
present-and-active registry row, `bulk_assign_modules` raises a
`ValidationError` whose message lists exactly the invalid ids (an id is
in that list iff it was requested and has no active registry row), the
assignment store and the whole database are unchanged, and no cache or
event side effect happens — including for the valid ids in the request. -/
theorem bulk_assign_all_or_nothing (db : DB) (organization_id : String)
    (module_ids : List String) (industry_code : Option String) (user_id : Option String)
    (invalid : List String)
    (hdef : invalid = (ModuleRegistryRepository.validate_modules_exist db module_ids).2)
    (hne : invalid ≠ []) :
    (ModuleService.bulk_assign_modules db organization_id module_ids industry_code
        user_id).result = .error (.validationError s!"Invalid modules: {invalid}") ∧
    (ModuleService.bulk_assign_modules db organization_id module_ids industry_code
        user_id).db = db ∧
    (ModuleService.bulk_assign_modules db organization_id module_ids industry_code
        user_id).effects = [] ∧
    (∀ mid, mid ∈ invalid ↔
      mid ∈ module_ids ∧ ¬∃ e ∈ db.registry, e.module_id = mid ∧ e.is_active = true) := by
  have hie : (ModuleRegistryRepository.validate_modules_exist db module_ids).2.isEmpty
      = false := by
    rw [List.isEmpty_eq_false]
    rw [← hdef]
    exact hne
  refine ⟨?_, ?_, ?_, ?_⟩
  · simp [ModuleService.bulk_assign_modules, hie, hdef]
  · simp [ModuleService.bulk_assign_modules, hie]
  · simp [ModuleService.bulk_assign_modules, hie]
  · intro mid
    rw [hdef]
    exact mem_invalid_iff db module_ids mid

/-- C2 witness: on the sample database, requesting `projects` together
with the unknown id `ghost` fails listing `ghost` and leaves the store
unchanged. -/
theorem bulk_assign_all_or_nothing_witness :
    ((["ghost"] : List String)
        = (ModuleRegistryRepository.validate_modules_exist dbSample ["projects", "ghost"]).2) ∧
    ((ModuleService.bulk_assign_modules dbSample "acme" ["projects", "ghost"] none
        none).result = .error (.validationError "Invalid modules: [ghost]")) ∧
    ((ModuleService.bulk_assign_modules dbSample "acme" ["projects", "ghost"] none
        none).db = dbSample) :=
  ⟨by decide,
   (bulk_assign_all_or_nothing dbSample "acme" ["projects", "ghost"] none none ["ghost"]
      (by decide) (by decide)).1,
   (bulk_assign_all_or_nothing dbSample "acme" ["projects", "ghost"] none none ["ghost"]
      (by decide) (by decide)).2.1⟩

/-- C3 (amended): every public mutating operation of the module service
sequences validate → persist → **publish event** → **invalidate cache**
(the code publishes to Kafka before deleting the cache key, not after),
and a validation failure short-circuits before any persistence, cache or
event effect: on failure the effect trace is empty and the database is
unchanged. -/
theorem entitlement_ops_effect_order (db : DB) (organization_id module_id : String)
    (module_ids : List String) (config : Config) (industry_code : Option String)
    (user_id : Option String) :
    (((ModuleService.assign_module db organization_id module_id config user_id).ok? = true →
      (ModuleService.assign_module db organization_id module_id config user_id).effects.map
          Effect.kind = [.persistK, .publishK, .invalidateK]) ∧
     ((ModuleService.assign_module db organization_id module_id config user_id).ok? = false →
      (ModuleService.assign_module db organization_id module_id config user_id).effects = [] ∧
      (ModuleService.assign_module db organization_id module_id config user_id).db = db)) ∧
    (((ModuleService.unassign_module db organization_id module_id user_id).ok? = true →
      (ModuleService.unassign_module db organization_id module_id user_id).effects.map
          Effect.kind = [.persistK, .publishK, .invalidateK]) ∧
     ((ModuleService.unassign_module db organization_id module_id user_id).ok? = false →
      (ModuleService.unassign_module db organization_id module_id user_id).effects = [] ∧
      (ModuleService.unassign_module db organization_id module_id user_id).db = db)) ∧
    (((ModuleService.bulk_assign_modules db organization_id module_ids industry_code
          user_id).ok? = true →
      (ModuleService.bulk_assign_modules db organization_id module_ids industry_code
          user_id).effects.map Effect.kind
        = (ModuleRegistryRepository.validate_modules_exist db module_ids).1.map
            (fun _ => EffKind.persistK) ++ [.publishK, .invalidateK]) ∧
     ((ModuleService.bulk_assign_modules db organization_id module_ids industry_code
          user_id).ok? = false →
      (ModuleService.bulk_assign_modules db organization_id module_ids industry_code
          user_id).effects = [] ∧
      (ModuleService.bulk_assign_modules db organization_id module_ids industry_code
          user_id).db = db)) := by
  refine ⟨⟨?_, ?_⟩, ⟨?_, ?_⟩, ⟨?_, ?_⟩⟩
  · cases hga : ModuleRegistryRepository.get_by_id db module_id with
    | none =>
      intro h
      exfalso
      simp [ModuleService.assign_module, hga, SvcResult.ok?] at h
    | some e =>
      cases hact : e.is_active with
      | false =>
        intro h
        exfalso
        simp [ModuleService.assign_module, hga, hact, SvcResult.ok?] at h
      | true =>
        intro _
        simp [ModuleService.assign_module, hga, hact, Effect.kind, publish_module_event]
  · cases hga : ModuleRegistryRepository.get_by_id db module_id with
    | none =>
      intro _
      simp [ModuleService.assign_module, hga]
    | some e =>
      cases hact : e.is_active with
      | false =>
        intro _
        simp [ModuleService.assign_module, hga, hact]
      | true =>
        intro h
        exfalso
        simp [ModuleService.assign_module, hga, hact, SvcResult.ok?] at h
  · cases hgm : OrganizationModuleRepository.get_by_org_and_module db organization_id
        module_id with
    | none =>
      intro h
      exfalso
      simp [ModuleService.unassign_module, hgm, SvcResult.ok?] at h
    | some m =>
      intro _
      simp [ModuleService.unassign_module, hgm, Effect.kind, publish_module_event]
  · cases hgm : OrganizationModuleRepository.get_by_org_and_module db organization_id
        module_id with
    | none =>
      intro _
      simp [ModuleService.unassign_module, hgm]
    | some m =>
      intro h
      exfalso
      simp [ModuleService.unassign_module, hgm, SvcResult.ok?] at h
  · cases hie : (ModuleRegistryRepository.validate_modules_exist db module_ids).2.isEmpty with
    | false =>
      intro h
      exfalso
      simp [ModuleService.bulk_assign_modules, hie, SvcResult.ok?] at h
    | true =>
      intro _
      simp [ModuleService.bulk_assign_modules, hie, Effect.kind, publish_module_event,
        List.map_map, Function.comp]
  · cases hie : (ModuleRegistryRepository.validate_modules_exist db module_ids).2.isEmpty with
    | false =>
      intro _
      simp [ModuleService.bulk_assign_modules, hie]
    | true =>
      intro h
      exfalso
      simp [ModuleService.bulk_assign_modules, hie, SvcResult.ok?] at h

/-- C3 counterexample: on the sample database a successful `assign_module`
produces the effect trace persist, publish, invalidate — the publication
comes before the cache invalidation, not after it as the claim orders
them. -/
theorem assign_module_publishes_before_invalidate :
    ((ModuleService.assign_module dbSample "acme" "projects" [] none).effects.map Effect.kind
        = [.persistK, .publishK, .invalidateK]) ∧
    ((([EffKind.persistK, .publishK, .invalidateK] : List EffKind)
        == [EffKind.persistK, .invalidateK, .publishK]) = false) := by
  exact ⟨by decide, by decide⟩

/-- C3 witness: the amended ordering theorem applied to a successful
unassign and to a failing assign on the sample databases. -/
theorem entitlement_ops_effect_order_witness :
    ((ModuleService.unassign_module dbAssigned "acme" "projects" none).effects.map Effect.kind
        = [.persistK, .publishK, .invalidateK]) ∧
    ((ModuleService.assign_module dbSample "acme" "ghost" [] none).effects = [] ∧
     (ModuleService.assign_module dbSample "acme" "ghost" [] none).db = dbSample) :=
  ⟨(entitlement_ops_effect_order dbAssigned "acme" "projects" [] [] none none).2.1.1
      (by decide),
   (entitlement_ops_effect_order dbSample "acme" "ghost" [] [] none none).1.2 (by decide)⟩

/-- C4 (amended): the assignment write paths `assign_module`,
`unassign_module` and `bulk_assign_modules` each delete the
`org:{organization_id}:modules` cache key synchronously, as the final
effect before returning success; but `update_module` (the updateConfig
path) performs no cache invalidation at all. -/
theorem write_ops_invalidate_cache (db : DB) (organization_id module_id : String)
    (module_ids : List String) (config : Config) (industry_code : Option String)
    (user_id : Option String) (module_data : OrganizationModuleUpdate) :
    ((ModuleService.assign_module db organization_id module_id config user_id).ok? = true →
      (ModuleService.assign_module db organization_id module_id config user_id).effects.getLast?
        = some (.invalidateOrgModules organization_id)) ∧
    ((ModuleService.unassign_module db organization_id module_id user_id).ok? = true →
      (ModuleService.unassign_module db organization_id module_id user_id).effects.getLast?
        = some (.invalidateOrgModules organization_id)) ∧
    ((ModuleService.bulk_assign_modules db organization_id module_ids industry_code
        user_id).ok? = true →
      (ModuleService.bulk_assign_modules db organization_id module_ids industry_code
        user_id).effects.getLast? = some (.invalidateOrgModules organization_id)) ∧
    ((ModuleService.update_module db organization_id module_id module_data).effects.any
        Effect.isInvalidate = false) := by
  refine ⟨?_, ?_, ?_, ?_⟩
  · cases hga : ModuleRegistryRepository.get_by_id db module_id with
    | none =>
      intro h
      exfalso
      simp [ModuleService.assign_module, hga, SvcResult.ok?] at h
    | some e =>
      cases hact : e.is_active with
      | false =>
        intro h
        exfalso
        simp [ModuleService.assign_module, hga, hact, SvcResult.ok?] at h
      | true =>
        intro _
        simp [ModuleService.assign_module, hga, hact]
  · cases hgm : OrganizationModuleRepository.get_by_org_and_module db organization_id
        module_id with
    | none =>
      intro h
      exfalso
      simp [ModuleService.unassign_module, hgm, SvcResult.ok?] at h
    | some m =>
      intro _
      simp [ModuleService.unassign_module, hgm]
  · cases hie : (ModuleRegistryRepository.validate_modules_exist db module_ids).2.isEmpty with
    | false =>
      intro h
      exfalso
      simp [ModuleService.bulk_assign_modules, hie, SvcResult.ok?] at h
    | true =>
      intro _
      simp [ModuleService.bulk_assign_modules, hie, List.getLast?_append]
  · cases hup : OrganizationModuleRepository.update db organization_id module_id
        module_data with
    | error e => simp [ModuleService.update_module, hup]
    | ok r => simp [ModuleService.update_module, hup, Effect.isInvalidate]

/-- C4 counterexample: on a database with an existing `acme/projects`
assignment, a successful `update_module` (updateConfig) performs no cache
invalidation, contradicting the claim that every write under a cached
namespace deletes the corresponding key before returning success. -/
theorem update_module_does_not_invalidate_cache :
    ((ModuleService.update_module dbAssigned "acme" "projects"
        { is_enabled := none, config := some [("a", "b")] }).ok? = true) ∧
    ((ModuleService.update_module dbAssigned "acme" "projects"
        { is_enabled := none, config := some [("a", "b")] }).effects.any Effect.isInvalidate
      = false) := by
  exact ⟨by decide, by decide⟩

/-- C4 witness: the amended theorem applied to a successful assign and
a successful bulk assign on the sample database. -/
theorem write_ops_invalidate_cache_witness :
    ((ModuleService.assign_module dbSample "acme" "projects" [] none).effects.getLast?
        = some (.invalidateOrgModules "acme")) ∧
    ((ModuleService.bulk_assign_modules dbSample "acme" ["crm"] none none).effects.getLast?
        = some (.invalidateOrgModules "acme")) :=
  ⟨(write_ops_invalidate_cache dbSample "acme" "projects" ["crm"] [] none none
      ⟨none, none⟩).1 (by decide),
   (write_ops_invalidate_cache dbSample "acme" "projects" ["crm"] [] none none
      ⟨none, none⟩).2.2.1 (by decide)⟩

theorem topic_assigned : topicFor "module.assigned" = "tenant.module.assigned" := by decide

theorem topic_unassigned : topicFor "module.unassigned" = "tenant.module.unassigned" := by
  decide

theorem topic_bulk_assigned :
    topicFor "module.bulk_assigned" = "tenant.module.bulk_assigned" := by decide

theorem filter_publish_persists (ids : List String) :
    (ids.map (fun _ => Effect.persist)).filter Effect.isPublish = [] := by
  induction ids with
  | nil => simp
  | cons x xs ih => simp [Effect.isPublish, ih]

theorem bulk_assign_publish_singleton (db : DB) (organization_id : String)
    (module_ids : List String) (industry_code : Option String) (user_id : Option String)
    (hok : (ModuleService.bulk_assign_modules db organization_id module_ids industry_code
        user_id).ok? = true) :
    ((ModuleService.bulk_assign_modules db organization_id module_ids industry_code
        user_id).effects.filter Effect.isPublish).map Effect.topicOf
      = ["tenant.module.bulk_assigned"] ∧
    ((ModuleService.bulk_assign_modules db organization_id module_ids industry_code
        user_id).effects.filter Effect.isPublish).map Effect.eventTypeOf
      = ["module.bulk_assigned"] := by
  cases hie : (ModuleRegistryRepository.validate_modules_exist db module_ids).2.isEmpty with
  | false =>
    exfalso
    simp [ModuleService.bulk_assign_modules, hie, SvcResult.ok?] at hok
  | true =>
    constructor
    · simp [ModuleService.bulk_assign_modules, hie, List.filter_append,
        filter_publish_persists, publish_module_event, Effect.isPublish, Effect.topicOf,
        topic_bulk_assigned]
    · simp [ModuleService.bulk_assign_modules, hie, List.filter_append,
        filter_publish_persists, publish_module_event, Effect.isPublish, Effect.eventTypeOf]

/-- C5 (amended): successful assign, unassign and bulk-assign mutations
each publish exactly one event, to `tenant.module.assigned`,
`tenant.module.unassigned` and `tenant.module.bulk_assigned`
respectively, carrying event_type, organization_id, optional user_id,
payload and timestamp; but a successful config update
(`update_module`) publishes no event at all, and applying an industry
template publishes exactly one event — the bulk-assigned one — rather
than a template-applied event. -/
theorem mutation_event_publication (db : DB) (organization_id module_id : String)
    (module_ids : List String) (config : Config) (industry_code : Option String)
    (code : String) (user_id : Option String) (module_data : OrganizationModuleUpdate) :
    ((ModuleService.assign_module db organization_id module_id config user_id).ok? = true →
      (ModuleService.assign_module db organization_id module_id config
          user_id).effects.filter Effect.isPublish
        = [Effect.publish "tenant.module.assigned"
            { event_type := "module.assigned"
              organization_id := organization_id
              user_id := user_id
              payload := [("module_id", .str module_id),
                ("organization_id", .str organization_id),
                ("config", .obj config),
                ("assigned_by", optStr user_id)]
              timestamp := db.now }]) ∧
    ((ModuleService.unassign_module db organization_id module_id user_id).ok? = true →
      (ModuleService.unassign_module db organization_id module_id user_id).effects.filter
          Effect.isPublish
        = [Effect.publish "tenant.module.unassigned"
            { event_type := "module.unassigned"
              organization_id := organization_id
              user_id := user_id
              payload := [("module_id", .str module_id),
                ("organization_id", .str organization_id),
                ("unassigned_by", optStr user_id)]
              timestamp := db.now }]) ∧
    ((ModuleService.bulk_assign_modules db organization_id module_ids industry_code
        user_id).ok? = true →
      ((ModuleService.bulk_assign_modules db organization_id module_ids industry_code
          user_id).effects.filter Effect.isPublish).map Effect.topicOf
        = ["tenant.module.bulk_assigned"] ∧
      ((ModuleService.bulk_assign_modules db organization_id module_ids industry_code
          user_id).effects.filter Effect.isPublish).map Effect.eventTypeOf
        = ["module.bulk_assigned"]) ∧
    ((ModuleService.update_module db organization_id module_id module_data).effects.filter
        Effect.isPublish = []) ∧
    ((IndustryTemplateService.apply_to_organization db organization_id code user_id).ok?
        = true →
      ((IndustryTemplateService.apply_to_organization db organization_id code
          user_id).effects.filter Effect.isPublish).map Effect.topicOf
        = ["tenant.module.bulk_assigned"] ∧
      ((IndustryTemplateService.apply_to_organization db organization_id code
          user_id).effects.filter Effect.isPublish).map Effect.eventTypeOf
        = ["module.bulk_assigned"]) := by
  refine ⟨?_, ?_, ?_, ?_, ?_⟩
  · cases hga : ModuleRegistryRepository.get_by_id db module_id with
    | none =>
      intro h
      exfalso
      simp [ModuleService.assign_module, hga, SvcResult.ok?] at h
    | some e =>
      cases hact : e.is_active with
      | false =>
        intro h
        exfalso
        simp [ModuleService.assign_module, hga, hact, SvcResult.ok?] at h
      | true =>
        intro _
        have hnow := (create_or_update_preserves db organization_id
          { module_id := module_id, is_enabled := true, config := config }).2.2.2.2
        simp [ModuleService.assign_module, hga, hact, publish_module_event,
          Effect.isPublish, topic_assigned, hnow]
  · cases hgm : OrganizationModuleRepository.get_by_org_and_module db organization_id
        module_id with
    | none =>
      intro h
      exfalso
      simp [ModuleService.unassign_module, hgm, SvcResult.ok?] at h
    | some m =>
      intro _
      simp [ModuleService.unassign_module, hgm, publish_module_event, Effect.isPublish,
        topic_unassigned]
  · intro hok
    exact bulk_assign_publish_singleton db organization_id module_ids industry_code
      user_id hok
  · cases hup : OrganizationModuleRepository.update db organization_id module_id
        module_data with
    | error e => simp [ModuleService.update_module, hup]
    | ok r => simp [ModuleService.update_module, hup, Effect.isPublish]
  · cases hgt : IndustryTemplateRepository.get_by_code db code with
    | none =>
      intro h
      exfalso
      simp [IndustryTemplateService.apply_to_organization, hgt, SvcResult.ok?] at h
    | some t =>
      cases hemp : (IndustryModuleTemplateRepository.get_modules_for_industry db
          code).isEmpty with
      | true =>
        intro h
        exfalso
        simp [IndustryTemplateService.apply_to_organization, hgt, hemp, SvcResult.ok?] at h
      | false =>
        cases hinv : (ModuleRegistryRepository.validate_modules_exist db
            ((IndustryModuleTemplateRepository.get_modules_for_industry db code).map
              (fun mt => mt.module_id))).2.isEmpty with
        | false =>
          intro h
          exfalso
          simp [IndustryTemplateService.apply_to_organization, hgt, hemp, hinv,
            SvcResult.ok?] at h
        | true =>
          cases hgo : OrganizationRepository.get_by_id db organization_id with
          | none =>
            intro h
            exfalso
            simp [IndustryTemplateService.apply_to_organization, hgt, hemp, hinv, hgo,
              SvcResult.ok?] at h
          | some o =>
            intro h
            simp only [IndustryTemplateService.apply_to_organization, hgt, hemp, hinv, hgo,
              Bool.not_false, Bool.not_true, if_false, if_true] at h ⊢
            have hok := h
            have hsing := bulk_assign_publish_singleton _ organization_id _ (some code)
              user_id hok
            simpa [Effect.isPublish] using hsing

/-- C5 counterexample: a successful config update (`update_module`) on an
existing assignment publishes no event at all, contradicting the claim
that every successful mutation publishes exactly one event. -/
theorem update_module_publishes_no_event :
    ((ModuleService.update_module dbAssigned "acme" "projects"
        { is_enabled := some true, config := none }).ok? = true) ∧
    ((ModuleService.update_module dbAssigned "acme" "projects"
        { is_enabled := some true, config := none }).effects.filter Effect.isPublish
      = []) := by
  exact ⟨by decide, by decide⟩

/-- C5 witness: the amended theorem applied to a successful assign with
an explicit actor on the sample database. -/
theorem mutation_event_publication_witness :
    (ModuleService.assign_module dbSample "acme" "crm" [("x", "1")]
        (some "u1")).effects.filter Effect.isPublish
      = [Effect.publish "tenant.module.assigned"
          { event_type := "module.assigned"
            organization_id := "acme"
            user_id := some "u1"
            payload := [("module_id", .str "crm"), ("organization_id", .str "acme"),
              ("config", .obj [("x", "1")]), ("assigned_by", optStr (some "u1"))]
            timestamp := 7 }] :=
  (mutation_event_publication dbSample "acme" "crm" [] [("x", "1")] none "tech" (some "u1")
    ⟨none, none⟩).1 (by decide)

/-- C6 counterexample: create the `acme/projects` assignment disabled,
then re-assign it enabled through `create_or_update`: the row transitions
to enabled for the first time yet `enabled_at` is never set,
contradicting the claim that `enabled_at` is set exactly once at the
first transition of `is_enabled` to true. -/
theorem reassign_does_not_set_enabled_at :
    (((OrganizationModuleRepository.create_or_update
        (OrganizationModuleRepository.create_or_update dbSample "acme"
          { module_id := "projects", is_enabled := false, config := [] }).2
        "acme" { module_id := "projects", is_enabled := true, config := [] }).1).is_enabled
      = true) ∧
    (((OrganizationModuleRepository.create_or_update
        (OrganizationModuleRepository.create_or_update dbSample "acme"
          { module_id := "projects", is_enabled := false, config := [] }).2
        "acme" { module_id := "projects", is_enabled := true, config := [] }).1).enabled_at
      = none) := by
  exact ⟨by decide, by decide⟩

/-- C6 (amended): `enabled_at` is set on row creation exactly when the
row is created enabled, and by the repository update on an enable whose
row has no `enabled_at` yet; once set it is never modified or cleared by
updates; however an enable through `create_or_update` on an existing row
never sets `enabled_at` (so a first enable via re-assign leaves it
unset). -/
theorem enabled_at_lifecycle (db : DB) (organization_id module_id : String)
    (md : OrganizationModuleCreate) (u : OrganizationModuleUpdate) :
    (∀ m, OrganizationModuleRepository.get_by_org_and_module db organization_id md.module_id
        = some m →
      ((OrganizationModuleRepository.create_or_update db organization_id md).1).enabled_at
        = m.enabled_at) ∧
    (OrganizationModuleRepository.get_by_org_and_module db organization_id md.module_id
        = none →
      ((OrganizationModuleRepository.create_or_update db organization_id md).1).enabled_at
        = (if md.is_enabled then some db.now else none)) ∧
    (∀ m t, OrganizationModuleRepository.get_by_org_and_module db organization_id module_id
        = some m → m.enabled_at = some t →
      ∀ m' db', OrganizationModuleRepository.update db organization_id module_id u
          = .ok (m', db') → m'.enabled_at = some t) ∧
    (∀ m, OrganizationModuleRepository.get_by_org_and_module db organization_id module_id
        = some m → m.enabled_at = none → u.is_enabled = some true →
      ∀ m' db', OrganizationModuleRepository.update db organization_id module_id u
          = .ok (m', db') → m'.enabled_at = some db.now) := by
  refine ⟨?_, ?_, ?_, ?_⟩
  · intro m hm
    unfold OrganizationModuleRepository.create_or_update
    rw [hm]
  · intro hm
    unfold OrganizationModuleRepository.create_or_update
    rw [hm]
  · intro m t hm ht m' db' hupd
    unfold OrganizationModuleRepository.update at hupd
    rw [hm] at hupd
    simp only [Except.ok.injEq, Prod.mk.injEq] at hupd
    rw [← hupd.1]
    rcases u with ⟨ue, uc⟩
    cases ue <;> cases uc <;> simp [ht]
  · intro m hm hen htrue m' db' hupd
    unfold OrganizationModuleRepository.update at hupd
    rw [hm] at hupd
    simp only [Except.ok.injEq, Prod.mk.injEq] at hupd
    rw [← hupd.1]
    rcases u with ⟨ue, uc⟩
    simp only at htrue
    subst htrue
    cases uc <;> simp [hen]

/-- C6 witness: the amended theorem applied to the sample database with
its existing enabled assignment and to a first-enable update. -/
theorem enabled_at_lifecycle_witness :
    (((OrganizationModuleRepository.create_or_update dbAssigned "acme"
        { module_id := "projects", is_enabled := true, config := [] }).1).enabled_at
      = some 7) :=
  (enabled_at_lifecycle dbAssigned "acme" "projects"
    { module_id := "projects", is_enabled := true, config := [] } ⟨none, none⟩).1
    { organization_id := "acme", module_id := "projects", is_enabled := true,
      config := [], enabled_at := some 7 } (by decide)

theorem record_update_self (x : OrganizationModule) (b : Bool) (c : Config)
    (h1 : x.is_enabled = b) (h2 : x.config = c) :
    ({ x with is_enabled := b, config := c } : OrganizationModule) = x := by
  cases x
  simp only at h1 h2
  rw [h1, h2]

/-- C7 (confirmed): assigning a valid active module twice with the same
config succeeds both times, the second call leaves the database exactly
as the first call left it (so config, is_enabled and enabled_at are all
unchanged), and after the first call the store holds exactly one
assignment row for the `(organization, module)` pair. -/
theorem assign_module_idempotent (db : DB) (organization_id module_id : String)
    (config : Config) (user_id : Option String) (e : ModuleRegistryEntry)
    (hreg : ModuleRegistryRepository.get_by_id db module_id = some e)
    (hact : e.is_active = true)
    (huniq : db.orgModulesUnique) :
    ((ModuleService.assign_module db organization_id module_id config user_id).ok? = true) ∧
    ((ModuleService.assign_module
        (ModuleService.assign_module db organization_id module_id config user_id).db
        organization_id module_id config user_id).ok? = true) ∧
    ((ModuleService.assign_module
        (ModuleService.assign_module db organization_id module_id config user_id).db
        organization_id module_id config user_id).db
      = (ModuleService.assign_module db organization_id module_id config user_id).db) ∧
    ((((ModuleService.assign_module db organization_id module_id config
        user_id).db).pairRows organization_id module_id).length = 1) := by
  have hfirstdb : (ModuleService.assign_module db organization_id module_id config
      user_id).db
      = (OrganizationModuleRepository.create_or_update db organization_id
          { module_id := module_id, is_enabled := true, config := config }).2 := by
    simp [ModuleService.assign_module, hreg, hact]
  have hok1 : (ModuleService.assign_module db organization_id module_id config user_id).ok?
      = true := by
    simp [ModuleService.assign_module, hreg, hact, SvcResult.ok?]
  have hreg2 : ModuleRegistryRepository.get_by_id
      (ModuleService.assign_module db organization_id module_id config user_id).db module_id
      = some e := by
    rw [hfirstdb]
    unfold ModuleRegistryRepository.get_by_id at hreg ⊢
    rw [(create_or_update_preserves db organization_id
      { module_id := module_id, is_enabled := true, config := config }).1]
    exact hreg
  have hm1 : OrganizationModuleRepository.get_by_org_and_module
      (ModuleService.assign_module db organization_id module_id config user_id).db
      organization_id module_id
      = some (OrganizationModuleRepository.create_or_update db organization_id
          { module_id := module_id, is_enabled := true, config := config }).1 := by
    rw [hfirstdb]
    exact get_after_create_or_update db organization_id
      { module_id := module_id, is_enabled := true, config := config }
  have hfields := create_or_update_fields db organization_id
    { module_id := module_id, is_enabled := true, config := config }
  have hfm : ({ (OrganizationModuleRepository.create_or_update db organization_id
        { module_id := module_id, is_enabled := true, config := config }).1 with
      is_enabled := true, config := config } : OrganizationModule)
      = (OrganizationModuleRepository.create_or_update db organization_id
        { module_id := module_id, is_enabled := true, config := config }).1 :=
    record_update_self _ true config hfields.2.2.1 hfields.2.2.2
  have hcount : ((((ModuleService.assign_module db organization_id module_id config
      user_id).db).pairRows organization_id module_id)).length = 1 := by
    rw [hfirstdb]
    unfold DB.pairRows
    unfold OrganizationModuleRepository.create_or_update
    cases hg0 : OrganizationModuleRepository.get_by_org_and_module db organization_id
        module_id with
    | none =>
      simp only
      rw [List.filter_append]
      have hnil : db.org_modules.filter
          (fun r => r.organization_id == organization_id && r.module_id == module_id)
          = [] := by
        rw [List.filter_eq_nil_iff]
        intro a ha
        exact (List.find?_eq_none.mp hg0) a ha
      rw [hnil]
      simp
    | some a =>
      simp only
      rw [@length_filter_setFirst OrganizationModule
        (fun r => r.organization_id == organization_id && r.module_id == module_id)
        (fun r => { r with is_enabled := true, config := config })
        (fun x hx => hx) db.org_modules]
      have hle : (db.org_modules.filter
          (fun r => r.organization_id == organization_id && r.module_id == module_id)).length
          ≤ 1 := by
        apply length_filter_le_one_of_pairwise ?hcond huniq
        case hcond =>
          intro x y hx hy hR
          rw [Bool.and_eq_true] at hx hy
          exact hR ⟨(beq_iff_eq.mp hx.1).trans (beq_iff_eq.mp hy.1).symm,
            (beq_iff_eq.mp hx.2).trans (beq_iff_eq.mp hy.2).symm⟩
      have hge : 1 ≤ (db.org_modules.filter
          (fun r => r.organization_id == organization_id && r.module_id == module_id)).length :=
        one_le_length_filter_of_find? hg0
      omega
  obtain ⟨d1, hd1⟩ : ∃ d1, (ModuleService.assign_module db organization_id module_id config
      user_id).db = d1 := ⟨_, rfl⟩
  rw [hd1] at hreg2 hm1 hcount
  have hstable : (OrganizationModuleRepository.create_or_update d1 organization_id
      { module_id := module_id, is_enabled := true, config := config }).2 = d1 := by
    simp only [OrganizationModuleRepository.create_or_update]
    rw [hm1]
    simp only
    rw [setFirst_of_find?_self hm1 hfm]
  have hok2 : (ModuleService.assign_module d1 organization_id module_id config user_id).ok?
      = true := by
    simp [ModuleService.assign_module, hreg2, hact, SvcResult.ok?]
  have hseconddb : (ModuleService.assign_module d1 organization_id module_id config
      user_id).db = d1 := by
    simp [ModuleService.assign_module, hreg2, hact, hstable]
  rw [hd1]
  exact ⟨hok1, hok2, hseconddb, hcount⟩

/-- C7 witness: the idempotence theorem applied to assigning the active
module `crm` to `acme` twice on the sample database. -/
theorem assign_module_idempotent_witness :
    ((ModuleService.assign_module
        (ModuleService.assign_module dbSample "acme" "crm" [] none).db
        "acme" "crm" [] none).db
      = (ModuleService.assign_module dbSample "acme" "crm" [] none).db) ∧
    ((((ModuleService.assign_module dbSample "acme" "crm" [] none).db).pairRows
        "acme" "crm").length = 1) :=
  ⟨(assign_module_idempotent dbSample "acme" "crm" [] none entCrm (by decide) (by decide)
      List.Pairwise.nil).2.2.1,
   (assign_module_idempotent dbSample "acme" "crm" [] none entCrm (by decide) (by decide)
      List.Pairwise.nil).2.2.2⟩

theorem setFirst_deactivate_all (A : String) :
    ∀ (l : List ModuleRegistryEntry),
      l.Pairwise (fun a b => a.module_id ≠ b.module_id) →
      ∀ x ∈ setFirst (fun m => m.module_id == A)
          (fun m => { m with is_active := false }) l,
        x.module_id = A → x.is_active = false := by
  intro l
  induction l with
  | nil =>
    intro _ x hx
    simp [setFirst] at hx
  | cons y ys ih =>
    intro hpw x hx hxa
    rcases List.pairwise_cons.mp hpw with ⟨hy, hys⟩
    by_cases hyA : (y.module_id == A) = true
    · simp only [setFirst, hyA, if_true] at hx
      rcases List.mem_cons.mp hx with h | h
      · subst h; rfl
      · exact absurd (by rw [beq_iff_eq.mp hyA, hxa] : y.module_id = x.module_id) (hy x h)
    · simp only [setFirst, hyA, Bool.false_eq_true, if_false] at hx
      rcases List.mem_cons.mp hx with h | h
      · subst h
        exact absurd (by simp [hxa] : (x.module_id == A) = true) hyA
      · exact ih hys x h hxa

/-- C8 (confirmed): deactivating a module that a template links leaves
the link in the template store, and applying that template afterwards
fails with a `ValidationError` whose invalid list names the deactivated
module, leaving the assignment store untouched and producing no cache or
event effect. -/
theorem deactivate_blocks_template_application (db : DB) (organization_id T A : String)
    (user_id : Option String) (t : IndustryTemplate) (mt : IndustryModuleTemplate)
    (e : ModuleRegistryEntry)
    (hru : db.registryIdsUnique) (htu : db.templateIdsUnique)
    (ht : IndustryTemplateRepository.get_by_code db T = some t)
    (hmt : mt ∈ db.template_modules) (hmtT : mt.template_id = t.id) (hmtA : mt.module_id = A)
    (he : ModuleRegistryRepository.get_by_id db A = some e) :
    ((ModuleRegistryService.deactivate_module db A).ok? = true) ∧
    ((ModuleRegistryService.deactivate_module db A).db.template_modules
        = db.template_modules) ∧
    (∀ inv, inv = (ModuleRegistryRepository.validate_modules_exist
        (ModuleRegistryService.deactivate_module db A).db
        ((IndustryModuleTemplateRepository.get_modules_for_industry
          (ModuleRegistryService.deactivate_module db A).db T).map
            (fun mt => mt.module_id))).2 →
      A ∈ inv ∧
      (IndustryTemplateService.apply_to_organization
          (ModuleRegistryService.deactivate_module db A).db organization_id T user_id).result
        = .error (.validationError
            s!"Industry template contains invalid modules: {inv}")) ∧
    ((IndustryTemplateService.apply_to_organization
        (ModuleRegistryService.deactivate_module db A).db organization_id T
        user_id).db.org_modules = db.org_modules) ∧
    ((IndustryTemplateService.apply_to_organization
        (ModuleRegistryService.deactivate_module db A).db organization_id T
        user_id).effects = []) := by
  have hrep : ModuleRegistryRepository.deactivate db A
      = .ok ({ e with is_active := false }, db.deactivateModule A) := by
    unfold ModuleRegistryRepository.deactivate
    rw [he]
    rfl
  have hok : (ModuleRegistryService.deactivate_module db A).ok? = true := by
    simp [ModuleRegistryService.deactivate_module, hrep, SvcResult.ok?]
  have hdb : (ModuleRegistryService.deactivate_module db A).db = db.deactivateModule A := by
    simp [ModuleRegistryService.deactivate_module, hrep]
  rw [hdb]
  have hgt : IndustryTemplateRepository.get_by_code (db.deactivateModule A) T = some t := ht
  have hmtmem : mt ∈ IndustryModuleTemplateRepository.get_modules_for_industry
      (db.deactivateModule A) T := by
    show mt ∈ sortByDisplayOrder _
    apply mem_sortByDisplayOrder.mpr
    apply List.mem_filter.mpr
    refine ⟨hmt, ?_⟩
    have hfind : db.templates.find? (fun x => x.id == mt.template_id) = some t := by
      rw [hmtT]
      apply find?_unique ?uniq (List.mem_of_find?_eq_some ht)
      · simp
      case uniq =>
        apply htu.imp
        intro a b hab hc
        exact hab ((beq_iff_eq.mp hc.1).trans (beq_iff_eq.mp hc.2).symm)
    have hfind' : (db.deactivateModule A).templates.find? (fun x => x.id == mt.template_id)
        = some t := hfind
    rw [hfind']
    simp only [Option.any_some]
    exact @List.find?_some IndustryTemplate (fun x => x.industry_code == T) t
      db.templates ht
  have hempfalse : (IndustryModuleTemplateRepository.get_modules_for_industry
      (db.deactivateModule A) T).isEmpty = false := by
    rw [List.isEmpty_eq_false]
    exact List.ne_nil_of_mem hmtmem
  have hallinact := setFirst_deactivate_all A db.registry hru
  have hAmem : A ∈ (IndustryModuleTemplateRepository.get_modules_for_industry
      (db.deactivateModule A) T).map (fun mt => mt.module_id) :=
    List.mem_map.mpr ⟨mt, hmtmem, hmtA⟩
  have hAinv : A ∈ (ModuleRegistryRepository.validate_modules_exist (db.deactivateModule A)
      ((IndustryModuleTemplateRepository.get_modules_for_industry
        (db.deactivateModule A) T).map (fun mt => mt.module_id))).2 := by
    apply (mem_invalid_iff _ _ _).mpr
    refine ⟨hAmem, ?_⟩
    rintro ⟨x, hx, hid, hact⟩
    have hina := hallinact x hx hid
    rw [hina] at hact
    cases hact
  have hinvfalse : ((ModuleRegistryRepository.validate_modules_exist (db.deactivateModule A)
      ((IndustryModuleTemplateRepository.get_modules_for_industry
        (db.deactivateModule A) T).map (fun mt => mt.module_id))).2).isEmpty = false := by
    rw [List.isEmpty_eq_false]
    exact List.ne_nil_of_mem hAinv
  refine ⟨hok, rfl, ?_, ?_, ?_⟩
  · intro inv hinvdef
    subst hinvdef
    refine ⟨hAinv, ?_⟩
    simp [IndustryTemplateService.apply_to_organization, hgt, hempfalse, hinvfalse]
  · simp [IndustryTemplateService.apply_to_organization, hgt, hempfalse, hinvfalse]
    rfl
  · simp [IndustryTemplateService.apply_to_organization, hgt, hempfalse, hinvfalse]

/-- C8 witness: on the sample database, after deactivating `projects`
the `tech -> projects` link is still present and applying `tech` to
`acme` fails naming `projects`. -/
theorem deactivate_blocks_template_application_witness :
    ((ModuleRegistryService.deactivate_module dbSample "projects").db.template_modules
        = dbSample.template_modules) ∧
    ((IndustryTemplateService.apply_to_organization
        (ModuleRegistryService.deactivate_module dbSample "projects").db "acme" "tech"
        none).db.org_modules = dbSample.org_modules) :=
  ⟨(deactivate_blocks_template_application dbSample "acme" "tech" "projects" none tmplTech
      linkTechProjects entProjects (by unfold DB.registryIdsUnique; decide)
      (by unfold DB.templateIdsUnique; decide) (by decide) (by decide)
      (by decide) (by decide) (by decide)).2.1,
   (deactivate_blocks_template_application dbSample "acme" "tech" "projects" none tmplTech
      linkTechProjects entProjects (by unfold DB.registryIdsUnique; decide)
      (by unfold DB.templateIdsUnique; decide) (by decide) (by decide)
      (by decide) (by decide) (by decide)).2.2.2.1⟩

/-- C9 counterexample: the registry module `legacy` is present but
inactive, yet `add_module_to_industry` succeeds and appends the link,
instead of failing with `NotFound` as the claim requires for an inactive
module. -/
theorem add_module_inactive_accepted :
    ((IndustryTemplateService.add_module_to_industry dbSample "tech" "legacy" false [] 2).ok?
      = true) ∧
    ((IndustryTemplateService.add_module_to_industry dbSample "tech" "legacy" false []
        2).db.template_modules
      = [linkTechProjects,
         { template_id := 1, module_id := "legacy", is_required := false,
           default_config := [], display_order := 2 }]) := by
  exact ⟨by decide, by decide⟩

/-- C9 (amended): `add_module_to_industry` fails with
`ResourceNotFoundError` when the template is missing or the module id is
absent from the registry — the module's active flag is not checked, so an
inactive module is accepted — fails with `ValidationError` (the
duplicate-link error) when the pair is already linked, and otherwise
appends the link row. -/
theorem add_module_to_industry_spec (db : DB) (industry_code module_id : String)
    (is_required : Bool) (default_config : Config) (display_order : Int) :
    (IndustryTemplateRepository.get_by_code db industry_code = none →
      (IndustryTemplateService.add_module_to_industry db industry_code module_id is_required
          default_config display_order).result
        = .error (.resourceNotFound s!"Industry template {industry_code} not found") ∧
      (IndustryTemplateService.add_module_to_industry db industry_code module_id is_required
          default_config display_order).db = db) ∧
    (∀ t, IndustryTemplateRepository.get_by_code db industry_code = some t →
      ModuleRegistryRepository.get_by_id db module_id = none →
      (IndustryTemplateService.add_module_to_industry db industry_code module_id is_required
          default_config display_order).result
        = .error (.resourceNotFound s!"Module {module_id} not found in registry") ∧
      (IndustryTemplateService.add_module_to_industry db industry_code module_id is_required
          default_config display_order).db = db) ∧
    (∀ t e, IndustryTemplateRepository.get_by_code db industry_code = some t →
      ModuleRegistryRepository.get_by_id db module_id = some e →
      ((IndustryModuleTemplateRepository.get_modules_for_industry db industry_code).any
        (fun mt => mt.module_id == module_id)) = true →
      (IndustryTemplateService.add_module_to_industry db industry_code module_id is_required
          default_config display_order).result
        = .error (.validationError
            s!"Module {module_id} is already assigned to industry {industry_code}") ∧
      (IndustryTemplateService.add_module_to_industry db industry_code module_id is_required
          default_config display_order).db = db) ∧
    (∀ t e, IndustryTemplateRepository.get_by_code db industry_code = some t →
      ModuleRegistryRepository.get_by_id db module_id = some e →
      ((IndustryModuleTemplateRepository.get_modules_for_industry db industry_code).any
        (fun mt => mt.module_id == module_id)) = false →
      (IndustryTemplateService.add_module_to_industry db industry_code module_id is_required
          default_config display_order).ok? = true ∧
      (IndustryTemplateService.add_module_to_industry db industry_code module_id is_required
          default_config display_order).db.template_modules
        = db.template_modules ++
            [{ template_id := t.id, module_id := module_id, is_required := is_required,
               default_config := default_config, display_order := display_order }]) := by
  refine ⟨?_, ?_, ?_, ?_⟩
  · intro h
    simp [IndustryTemplateService.add_module_to_industry, h]
  · intro t ht hm
    simp [IndustryTemplateService.add_module_to_industry, ht, hm]
  · intro t e ht hm hdup
    simp [IndustryTemplateService.add_module_to_industry, ht, hm, hdup]
  · intro t e ht hm hdup
    constructor
    · simp [IndustryTemplateService.add_module_to_industry, ht, hm, hdup, SvcResult.ok?,
        IndustryModuleTemplateRepository.add_module_to_industry]
    · simp [IndustryTemplateService.add_module_to_industry, ht, hm, hdup,
        IndustryModuleTemplateRepository.add_module_to_industry]

/-- C9 witness: the amended theorem applied to the sample database —
missing template, missing module, and a successful append of `crm` to
`tech`. -/
theorem add_module_to_industry_spec_witness :
    ((IndustryTemplateService.add_module_to_industry dbSample "nope" "crm" false [] 0).result
      = .error (.resourceNotFound "Industry template nope not found")) ∧
    ((IndustryTemplateService.add_module_to_industry dbSample "tech" "crm" true [] 1).ok?
      = true) :=
  ⟨((add_module_to_industry_spec dbSample "nope" "crm" false [] 0).1 (by decide)).1,
   ((add_module_to_industry_spec dbSample "tech" "crm" true [] 1).2.2.2 tmplTech entCrm
      (by decide) (by decide) (by decide)).1⟩

/-- C10 (confirmed): bulk-assigning presently-active modules with an
industry code that matches no template succeeds with no error for the
unknown code: every requested module ends up assigned and enabled with
the empty config, and the single published bulk-assigned event still
carries the unknown industry code in its payload. -/
theorem bulk_assign_unknown_industry_code (db : DB) (organization_id : String)
    (module_ids : List String) (code : String) (user_id : Option String)
    (hvalid : (ModuleRegistryRepository.validate_modules_exist db module_ids).2 = [])
    (hnotmpl : IndustryTemplateRepository.get_by_code db code = none) :
    ((ModuleService.bulk_assign_modules db organization_id module_ids (some code)
        user_id).ok? = true) ∧
    (∀ mid ∈ module_ids, ∃ m, OrganizationModuleRepository.get_by_org_and_module
        (ModuleService.bulk_assign_modules db organization_id module_ids (some code)
          user_id).db organization_id mid = some m ∧ m.is_enabled = true ∧ m.config = []) ∧
    ((ModuleService.bulk_assign_modules db organization_id module_ids (some code)
        user_id).effects.filter Effect.isPublish
      = [Effect.publish "tenant.module.bulk_assigned"
          { event_type := "module.bulk_assigned"
            organization_id := organization_id
            user_id := user_id
            payload := [("module_ids",
                .arr (ModuleRegistryRepository.validate_modules_exist db module_ids).1),
              ("organization_id", .str organization_id),
              ("industry_code", .str code),
              ("assigned_by", optStr user_id)]
            timestamp := db.now }]) := by
  have hie : (ModuleRegistryRepository.validate_modules_exist db module_ids).2.isEmpty
      = true := by
    rw [hvalid]
    rfl
  refine ⟨?_, ?_, ?_⟩
  · simp [ModuleService.bulk_assign_modules, hie, SvcResult.ok?]
  · intro mid hmid
    have hmem := mem_valid_of_no_invalid db module_ids hvalid mid hmid
    rcases bulkAssignLoop_assigns organization_id []
        ((ModuleRegistryRepository.validate_modules_exist db module_ids).1) db mid hmem
      with ⟨m, hm, hen, hcf⟩
    have hdb : (ModuleService.bulk_assign_modules db organization_id module_ids (some code)
        user_id).db
        = (bulkAssignLoop organization_id []
            ((ModuleRegistryRepository.validate_modules_exist db module_ids).1) db).2 := by
      simp [ModuleService.bulk_assign_modules, hie, hnotmpl]
    refine ⟨m, ?_, hen, ?_⟩
    · rw [hdb]
      exact hm
    · rw [hcf]
      rfl
  · have hnow := (bulkAssignLoop_preserves organization_id []
      ((ModuleRegistryRepository.validate_modules_exist db module_ids).1) db).2
    simp [ModuleService.bulk_assign_modules, hie, hnotmpl, List.filter_append,
      filter_publish_persists, publish_module_event, Effect.isPublish, topic_bulk_assigned,
      hnow, optStr]

/-- C10 witness: bulk-assigning `projects` and `crm` with the unknown
industry code `nope` on the sample database succeeds and publishes a
bulk-assigned event naming `nope`. -/
theorem bulk_assign_unknown_industry_code_witness :
    ((ModuleService.bulk_assign_modules dbSample "acme" ["projects", "crm"] (some "nope")
        none).ok? = true) ∧
    ((ModuleService.bulk_assign_modules dbSample "acme" ["projects", "crm"] (some "nope")
        none).effects.filter Effect.isPublish
      = [Effect.publish "tenant.module.bulk_assigned"
          { event_type := "module.bulk_assigned"
            organization_id := "acme"
            user_id := none
            payload := [("module_ids",
                .arr (ModuleRegistryRepository.validate_modules_exist dbSample
                  ["projects", "crm"]).1),
              ("organization_id", .str "acme"),
              ("industry_code", .str "nope"),
              ("assigned_by", optStr none)]
            timestamp := 7 }]) :=
  ⟨(bulk_assign_unknown_industry_code dbSample "acme" ["projects", "crm"] "nope" none
      (by decide) (by decide)).1,
   (bulk_assign_unknown_industry_code dbSample "acme" ["projects", "crm"] "nope" none
      (by decide) (by decide)).2.2⟩
